import Mathlib

/-!
Verification development for the executive-dashboard query pipeline
(`executive_dashboard/`): a shallow embedding in Lean 4 of the intent
classifier (`llm_handler.py`), the conversation-history operations
(`llamastack_handler.py`), the pandas code execution engine, result
formatter and auto-visualization selector (`pandas_query_generator.py`),
and the query orchestrator (`query_agent.py`), together with theorems
about the embedded operations.

Python strings are modelled by `String` / `List Char`; Python string
operations that matter here (`lower`, substring membership via `in`,
`startswith`, slicing) are defined over character lists so that all
definitions evaluate by kernel reduction.
-/

set_option maxRecDepth 20000

namespace ExecDash

/-! ## Python string primitives -/

/-- Python `str.lower()` on the character sequence of a string. -/
def pyLower (s : List Char) : List Char := s.map Char.toLower

/-- Python substring membership `pat in s` (contiguous occurrence). -/
def substrHit (pat : List Char) : List Char → Bool
  | [] => pat.isPrefixOf []
  | c :: rest => pat.isPrefixOf (c :: rest) || substrHit pat rest

/-- Python `s.startswith(pat)`. -/
def pyStartsWith (pat s : List Char) : Bool := pat.isPrefixOf s

/-- Python `str.title()` restricted to a single lowercase word, as used on
the intent labels (`query_type.title()`). -/
def pyTitle (s : String) : String :=
  match s.data with
  | [] => ""
  | c :: cs => String.mk (c.toUpper :: cs)

/-! ## Intent classifier (`QueryPromptBuilder.classify_query`, llm_handler.py) -/

/-- Keyword vocabulary for the `performance` intent (llm_handler.py lines 146-160). -/
def performance_keywords : List String :=
  ["sales", "revenue", "performance", "trend", "growth", "volume",
   "q1", "q2", "q3", "q4", "quarter", "month", "year"]

/-- Keyword vocabulary for the `comparison` intent (llm_handler.py lines 161-171). -/
def comparison_keywords : List String :=
  ["compare", "versus", "vs", "difference", "better", "worse", "than",
   "last year", "this year"]

/-- Keyword vocabulary for the `anomaly` intent (llm_handler.py lines 172-182). -/
def anomaly_keywords : List String :=
  ["underperforming", "overperforming", "outlier", "unusual", "anomaly",
   "spike", "drop", "concern", "problem"]

/-- Keyword vocabulary for the `drilldown` intent (llm_handler.py lines 183-192). -/
def drilldown_keywords : List String :=
  ["why", "what's driving", "cause", "reason", "breakdown", "detail",
   "explain", "factors"]

/-- Python `sum(1 for kw in kws if kw in question_lower)`. -/
def countHits (kws : List String) (ql : List Char) : Nat :=
  (kws.filter (fun kw => substrHit kw.data ql)).length

/-- Python `max(iterable_of_pairs, key=snd)`: keeps the first element,
replacing it only on a strictly greater key, so the first maximal element
wins (CPython `max` semantics used by `max(scores, key=scores.get)`). -/
def pyMaxByKey (p : String × Nat) (rest : List (String × Nat)) : String :=
  (rest.foldl (fun best cur => if best.2 < cur.2 then cur else best) p).1

/-- Embedding of `QueryPromptBuilder.classify_query` (llm_handler.py lines
143-206): lower-case the question, score the four keyword vocabularies by
substring hits, return `general` when the maximal score is zero, otherwise
the first dict key attaining the maximal score (dict insertion order is
`performance`, `comparison`, `anomaly`, `drilldown`). -/
def classify_query (question : String) : String :=
  let ql := pyLower question.data
  let p := countHits performance_keywords ql
  let c := countHits comparison_keywords ql
  let a := countHits anomaly_keywords ql
  let d := countHits drilldown_keywords ql
  let mx := [p, c, a, d].foldl Nat.max 0
  if mx = 0 then "general"
  else pyMaxByKey ("performance", p) [("comparison", c), ("anomaly", a), ("drilldown", d)]

/-- Modelled from the spec's words (for comparison with `classify_query`):
`general` when all four scores are zero, otherwise the intent with the
highest score, ties among non-zero scores broken by the fixed enumeration
order `performance`, `comparison`, `anomaly`, `drilldown`. -/
def classify_query_spec (question : String) : String :=
  let ql := pyLower question.data
  let p := countHits performance_keywords ql
  let c := countHits comparison_keywords ql
  let a := countHits anomaly_keywords ql
  let d := countHits drilldown_keywords ql
  if p = 0 ∧ c = 0 ∧ a = 0 ∧ d = 0 then "general"
  else if c ≤ p ∧ a ≤ p ∧ d ≤ p then "performance"
  else if a ≤ c ∧ d ≤ c then "comparison"
  else if d ≤ a then "anomaly"
  else "drilldown"

/-! ## Conversation history (`LlamaStackLLM`, llamastack_handler.py) -/

/-- One entry of `conversation_history`: a `{"role": ..., "content": ...}` dict. -/
structure ChatMsg where
  role : String
  content : String
  deriving DecidableEq

/-- The most recent at-most-`k` elements of a list. -/
def lastN (k : Nat) (l : List α) : List α := (l.reverse.take k).reverse

/-- Python slice `l[-k:]`. For `k > 0` this is the last `min k (len l)`
elements; for `k = 0` the index `-0` is `0`, so `l[-0:] = l[0:] = l`. -/
def pySliceLast (k : Nat) (l : List α) : List α :=
  if k = 0 then l else lastN k l

/-- The effect of `LlamaStackLLM.send_message` (llamastack_handler.py lines
92-130) on `conversation_history`: when the response does not start with
"Error", append the user/assistant pair, then, if the length exceeds
`max_history * 2`, keep `conversation_history[-(max_history * 2):]`. -/
def send_message_update (maxHistory : Nat) (h : List ChatMsg) (userMsg response : String) :
    List ChatMsg :=
  if pyStartsWith "Error".data response.data then h
  else
    if maxHistory * 2 < (h ++ [(⟨"user", userMsg⟩ : ChatMsg), ⟨"assistant", response⟩]).length then
      pySliceLast (maxHistory * 2) (h ++ [(⟨"user", userMsg⟩ : ChatMsg), ⟨"assistant", response⟩])
    else h ++ [(⟨"user", userMsg⟩ : ChatMsg), ⟨"assistant", response⟩]

/-- `LlamaStackLLM.clear_history` (llamastack_handler.py lines 132-135). -/
def clear_history : List ChatMsg := []

/-- `LlamaStackLLM.undo_last_exchange` (llamastack_handler.py lines 151-156):
if at least two entries exist, drop the last two (`[:-2]`) and return `True`,
otherwise leave the history alone and return `False`. -/
def undo_last_exchange (h : List ChatMsg) : List ChatMsg × Bool :=
  if 2 ≤ h.length then (h.take (h.length - 2), true) else (h, false)

/-- History after a sequence of `send_message` exchanges starting from the
empty history; each exchange is a (user message, backend response) pair. -/
def histAfter (maxHistory : Nat) (exs : List (String × String)) : List ChatMsg :=
  exs.foldl (fun h e => send_message_update maxHistory h e.1 e.2) []

/-- All entries that the exchanges in `exs` append (exchanges whose response
starts with "Error" append nothing). -/
def appendedEntries (exs : List (String × String)) : List ChatMsg :=
  (exs.filter (fun e => !pyStartsWith "Error".data e.2.data)).flatMap
    (fun e => [⟨"user", e.1⟩, ⟨"assistant", e.2⟩])

/-- The entries a single exchange appends. -/
def entriesOf (e : String × String) : List ChatMsg :=
  if pyStartsWith "Error".data e.2.data then [] else [⟨"user", e.1⟩, ⟨"assistant", e.2⟩]

/-! ## Tabular data model

A pandas DataFrame is modelled by its column schema (name and dtype, where
`DType.num` stands for the numeric dtypes selected by
`select_dtypes(include=["number"])` and `DType.obj` for everything else)
and its rows. Numeric cell values are modelled by `Int`. A Series is
modelled by its (index, value) entries plus the dtypes of index and values. -/

/-- Column dtype class: numeric (`select_dtypes(include=["number"])`) or not. -/
inductive DType where
  | num
  | obj
  deriving DecidableEq

/-- A single cell value. -/
inductive Cell where
  | cNum (x : Int)
  | cStr (s : String)
  deriving DecidableEq

/-- A pandas DataFrame: schema plus rows. -/
structure DataFrame where
  header : List (String × DType)
  rows : List (List Cell)
  deriving DecidableEq

/-- A pandas Series: (index, value) entries plus index/value dtypes. -/
structure SeriesV where
  idxType : DType
  valType : DType
  entries : List (Cell × Cell)
  deriving DecidableEq

/-- A Python value that can end up in the `result` variable: the shapes the
formatter and visualizer distinguish via `isinstance`, plus `None`. Scalar
numbers are modelled by `vInt`; `vOther` carries `str(result)`. -/
inductive PyValue where
  | vNone
  | vDF (df : DataFrame)
  | vSeries (s : SeriesV)
  | vInt (n : Int)
  | vStr (s : String)
  | vDict (entries : List (String × String))
  | vOther (repr : String)
  deriving DecidableEq

/-- Python `type(result).__name__` for the modelled values. -/
def resultTypeName : PyValue → String
  | .vNone => "NoneType"
  | .vDF _ => "DataFrame"
  | .vSeries _ => "Series"
  | .vInt _ => "int"
  | .vStr _ => "str"
  | .vDict _ => "dict"
  | .vOther _ => "object"

/-! ## Execution engine (`PandasCodeGenerator.execute_code`) -/

/-- The four dataframes held by the data loader and exposed to generated
code by `execute_code` (pandas_query_generator.py lines 219-226). -/
structure DataLoader where
  store_transactions : DataFrame
  product_sales : DataFrame
  inventory_data : DataFrame
  customer_data : DataFrame
  deriving DecidableEq

/-- The four dataset names bound in the execution scope. -/
inductive DSName where
  | storeTransactions
  | productSales
  | inventoryData
  | customerData
  deriving DecidableEq

/-- Read a data loader field by name. -/
def loaderGet (dl : DataLoader) : DSName → DataFrame
  | .storeTransactions => dl.store_transactions
  | .productSales => dl.product_sales
  | .inventoryData => dl.inventory_data
  | .customerData => dl.customer_data

/-- Replace a data loader field by name. -/
def loaderSet (n : DSName) (df : DataFrame) (dl : DataLoader) : DataLoader :=
  match n with
  | .storeTransactions => { dl with store_transactions := df }
  | .productSales => { dl with product_sales := df }
  | .inventoryData => { dl with inventory_data := df }
  | .customerData => { dl with customer_data := df }

/-- Apply a function to one data loader field, in place. -/
def loaderUpdate (n : DSName) (f : DataFrame → DataFrame) (dl : DataLoader) : DataLoader :=
  loaderSet n (f (loaderGet dl n)) dl

/-- Statements of generated Python programs, abstracted to the operations
relevant to the `execute_code` interface. `assignResult v` is
`result = <expr>`; `rebindTable n df` is a plain assignment
`<dataset name> = <expr>` (which writes `exec_locals` and does not touch
the object the data loader holds); `mutateTable n f` is an in-place
mutation of the object currently bound to the dataset name (for example
`store_transactions["Date"] = pd.to_datetime(...)`); `raiseStmt msg` is a
statement raising an exception whose `str` is `msg`; `passStmt` is any
statement with no effect observable at this interface. -/
inductive Stmt where
  | assignResult (v : PyValue)
  | rebindTable (n : DSName) (df : DataFrame)
  | mutateTable (n : DSName) (f : DataFrame → DataFrame)
  | raiseStmt (msg : String)
  | passStmt

/-- Whether a statement is `result = <expr>`. -/
def assignsResult : Stmt → Bool
  | .assignResult _ => true
  | _ => false

/-- Whether a statement raises. -/
def isRaise : Stmt → Bool
  | .raiseStmt _ => true
  | _ => false

/-- Whether a statement mutates a dataset object in place. -/
def isMutate : Stmt → Bool
  | .mutateTable _ _ => true
  | _ => false

/-- Execution state: the table currently bound to each dataset name, whether
that binding still aliases the object the data loader holds (true until the
name is rebound), the `result` entry of `exec_locals`, and the data loader's
own state (which in-place mutations of aliased objects change). -/
structure ExecState where
  env : DSName → DataFrame
  aliased : DSName → Bool
  resultVar : Option PyValue
  loader : DataLoader

/-- Initial execution scope built by `execute_code`: each dataset name bound
directly to the data loader's dataframe (no copy is taken), empty
`exec_locals`. -/
def initState (dl : DataLoader) : ExecState :=
  { env := loaderGet dl, aliased := fun _ => true, resultVar := none, loader := dl }

/-- Effect of one non-raising statement. -/
def applyStmt (st : ExecState) : Stmt → ExecState
  | .assignResult v => { st with resultVar := some v }
  | .rebindTable n df =>
    { st with
      env := fun n2 => if n2 = n then df else st.env n2,
      aliased := fun n2 => if n2 = n then false else st.aliased n2 }
  | .mutateTable n f =>
    { st with
      env := fun n2 => if n2 = n then f (st.env n) else st.env n2,
      loader := if st.aliased n then loaderUpdate n f st.loader else st.loader }
  | .raiseStmt _ => st
  | .passStmt => st

/-- One step of execution: a raising statement aborts with its message and
the current state, any other statement applies its effect. -/
def stepStmt (st : ExecState) : Stmt → Except (String × ExecState) ExecState
  | .raiseStmt msg => .error (msg, st)
  | s => .ok (applyStmt st s)

/-- Run the statements of `exec(code, exec_globals, exec_locals)` in order;
a raise aborts execution, carrying the exception message and the state at
that point (effects performed before the raise persist). -/
def runStmts : List Stmt → ExecState → Except (String × ExecState) ExecState
  | [], st => .ok st
  | s :: rest, st =>
    match stepStmt st s with
    | .error e => .error e
    | .ok st2 => runStmts rest st2

/-- Python `traceback.format_exc()`: a diagnostic trace, starting with the
fixed header line and ending with the exception text. It is never empty. -/
def format_exc (msg : String) : String :=
  "Traceback (most recent call last):\n" ++ msg

/-- The `execute_code` return dict (pandas_query_generator.py lines 230-257):
`ok result result_type` for the success dict, `err error traceback?` for the
two failure dicts (the missing-`result` dict has no traceback key). The
`code` key, equal to the input in every branch, is omitted. -/
inductive Outcome where
  | ok (result : PyValue) (result_type : String)
  | err (error : String) (tb : Option String)
  deriving DecidableEq

/-- Embedding of `PandasCodeGenerator.execute_code` (pandas_query_generator.py
lines 214-257), paired with the data loader state after execution: run the
code in a scope whose dataset names are bound to the loader's dataframes;
on an exception return the failure dict with `str(e)` and the trace; on
completion read `exec_locals.get("result", None)` and return the
missing-result failure when it `is None`, the success dict otherwise. -/
def execute_code (code : List Stmt) (dl : DataLoader) : Outcome × DataLoader :=
  match runStmts code (initState dl) with
  | .error (msg, st) => (Outcome.err msg (some (format_exc msg)), st.loader)
  | .ok st =>
    match st.resultVar.getD PyValue.vNone with
    | .vNone => (Outcome.err "Code did not produce a `result` variable" none, st.loader)
    | r => (Outcome.ok r (resultTypeName r), st.loader)

/-- True when the program completes (no raise) with `exec_locals["result"]`
unset or set to `None`. -/
def completesWithNoneResult (code : List Stmt) (dl : DataLoader) : Bool :=
  match runStmts code (initState dl) with
  | .ok st =>
    match st.resultVar with
    | none => true
    | some .vNone => true
    | some _ => false
  | .error _ => false

/-- True when the program completes without raising. -/
def execCompletes (code : List Stmt) (dl : DataLoader) : Bool :=
  match runStmts code (initState dl) with
  | .ok _ => true
  | .error _ => false

/-- The final `result` binding when the program completes. -/
def execResultVar (code : List Stmt) (dl : DataLoader) : Option PyValue :=
  match runStmts code (initState dl) with
  | .ok st => st.resultVar
  | .error _ => none

/-! ## Result formatter (`PandasCodeGenerator.format_result`) -/

/-- Rendering of one cell inside `to_string()`. -/
def cellToStr : Cell → String
  | .cNum x => Int.repr x
  | .cStr s => s

/-- Rendering of one row inside `to_string()`. -/
def rowToStr (r : List Cell) : String :=
  String.intercalate "  " (r.map cellToStr)

/-- The header line of `DataFrame.to_string()`. -/
def dfHeaderStr (df : DataFrame) : String :=
  String.intercalate "  " (df.header.map Prod.fst)

/-- Abstraction of `DataFrame.to_string()`: header line followed by one line
per row, so the rendering determines exactly which rows are shown. -/
def dfToString (df : DataFrame) : String :=
  String.intercalate "\n" (dfHeaderStr df :: df.rows.map rowToStr)

/-- Python `df.head(n)`. -/
def dfHead (n : Nat) (df : DataFrame) : DataFrame :=
  { df with rows := df.rows.take n }

/-- Abstraction of `Series.to_string()`: one line per (index, value) entry. -/
def seriesToString (s : SeriesV) : String :=
  String.intercalate "\n" (s.entries.map (fun e => cellToStr e.1 ++ "    " ++ cellToStr e.2))

/-- Python `series.head(n)`. -/
def seriesHead (n : Nat) (s : SeriesV) : SeriesV :=
  { s with entries := s.entries.take n }

/-- Embedding of `PandasCodeGenerator.format_result` (pandas_query_generator.py
lines 259-297): failures render the error; DataFrames and Series of more
than 20 rows/values render a count header, the first 10 rows and a
"(showing 10 of N ...)" annotation, shorter ones render in full; int/float/str
render as `Result: ...`; dicts as indented `key: value` lines; everything
else (including `None`) as `str(result)`. -/
def format_result (o : Outcome) : String :=
  match o with
  | .err e _ => "Error executing code:\n" ++ e
  | .ok r _ =>
    match r with
    | .vDF df =>
      if 20 < df.rows.length then
        "DataFrame with " ++ Nat.repr df.rows.length ++ " rows and "
          ++ Nat.repr df.header.length ++ " columns\n\n"
          ++ "First 10 rows:\n" ++ dfToString (dfHead 10 df)
          ++ "\n\n... (showing 10 of " ++ Nat.repr df.rows.length ++ " rows)"
      else dfToString df
    | .vSeries s =>
      if 20 < s.entries.length then
        "Series with " ++ Nat.repr s.entries.length ++ " values\n\n"
          ++ "First 10 values:\n" ++ seriesToString (seriesHead 10 s)
          ++ "\n\n... (showing 10 of " ++ Nat.repr s.entries.length ++ " values)"
      else seriesToString s
    | .vInt n => "Result: " ++ Int.repr n
    | .vStr s => "Result: " ++ s
    | .vDict entries =>
      "Result (dictionary):\n"
        ++ String.join (entries.map (fun kv => "  " ++ kv.1 ++ ": " ++ kv.2 ++ "\n"))
    | .vNone => "None"
    | .vOther r => r

/-! ## Auto-visualization selector (`PandasCodeGenerator.create_visualization`) -/

/-- The chart families the selector can decide on. -/
inductive ChartKind where
  | bar
  | line
  | groupedBar
  | scatter
  deriving DecidableEq

/-- A plotly figure, abstracted to its chart family and the dataframe handed
to the plotting call (`df_plot` in the source). -/
structure Chart where
  kind : ChartKind
  plotted : DataFrame
  deriving DecidableEq

/-- `df.select_dtypes(include=["number"]).columns.tolist()`. -/
def numericColNames (df : DataFrame) : List String :=
  (df.header.filter (fun c => c.2 == DType.num)).map Prod.fst

/-- `[c for c in df.columns if c not in numeric_cols]`. -/
def catColNames (df : DataFrame) : List String :=
  (df.header.map Prod.fst).filter (fun c => !((numericColNames df).contains c))

/-- Index of a column name in the schema. -/
def colIdx (df : DataFrame) (name : String) : Nat :=
  (df.header.map Prod.fst).indexOf name

/-- The numeric value a row holds in the named column (0 for a cell that is
not numeric, which cannot occur in a `DType.num` column of a well-formed
frame). -/
def cellKey (df : DataFrame) (col : String) (row : List Cell) : Int :=
  match row.get? (colIdx df col) with
  | some (.cNum x) => x
  | _ => 0

/-- `df.nlargest(n, key)` at the row level: stable descending sort by the
key (ties keep the earlier row, pandas `keep="first"`), then the first `n`. -/
def nlargestRows (n : Nat) (key : List Cell → Int) (rows : List (List Cell)) :
    List (List Cell) :=
  (List.insertionSort (fun a b => key b ≤ key a) rows).take n

/-- `df.nlargest(n, col)`. -/
def nlargestDF (n : Nat) (col : String) (df : DataFrame) : DataFrame :=
  { df with rows := nlargestRows n (cellKey df col) df.rows }

/-- Row total over all numeric columns: `df[numeric_cols].sum(axis=1)`, the
`_total` key used for capping in the multi-numeric-column case. -/
def rowTotal (df : DataFrame) (row : List Cell) : Int :=
  ((numericColNames df).map (fun c => cellKey df c row)).sum

/-- `result.reset_index()` followed by `df.columns = ["Category", "Value"]`
for a Series result. -/
def seriesToDF (s : SeriesV) : DataFrame :=
  { header := [("Category", s.idxType), ("Value", s.valType)],
    rows := s.entries.map (fun e => [e.1, e.2]) }

/-- The chart decision for the (possibly coerced) dataframe, following
pandas_query_generator.py lines 408-496: empty frame or no numeric column
gives no chart; exactly one numeric column gives a bar chart when a
non-numeric column exists (capped to the 15 largest by the numeric column
when more than 15 rows) and otherwise falls through to no chart; two or
more numeric columns give a line chart when the first non-numeric column
name contains "date" or "time" and a grouped bar chart otherwise (capped to
the 15 largest by the numeric row total), and with no non-numeric column a
scatter plot when there are exactly two numeric columns, otherwise no
chart. -/
def vizFromDF (df : DataFrame) : Option Chart :=
  if df.rows.length = 0 then none
  else
    match numericColNames df with
    | [] => none
    | [valueCol] =>
      match catColNames df with
      | [] => none
      | _ :: _ =>
        let dfPlot := if 15 < df.rows.length then nlargestDF 15 valueCol df else df
        some ⟨ChartKind.bar, dfPlot⟩
    | _ :: _ :: _ =>
      match catColNames df with
      | catCol :: _ =>
        let dfPlot :=
          if 15 < df.rows.length then
            { df with rows := nlargestRows 15 (rowTotal df) df.rows }
          else df
        if substrHit "date".data (pyLower catCol.data)
            || substrHit "time".data (pyLower catCol.data) then
          some ⟨ChartKind.line, dfPlot⟩
        else
          some ⟨ChartKind.groupedBar, dfPlot⟩
      | [] =>
        if (numericColNames df).length = 2 then some ⟨ChartKind.scatter, df⟩
        else none

/-- Embedding of `PandasCodeGenerator.create_visualization`
(pandas_query_generator.py lines 386-501): failures and results that are
neither DataFrame nor Series give no chart; a Series is coerced to a
two-column `Category`/`Value` frame; the rest is `vizFromDF`. -/
def create_visualization (o : Outcome) : Option Chart :=
  match o with
  | .err _ _ => none
  | .ok r _ =>
    match r with
    | .vDF df => vizFromDF df
    | .vSeries s => vizFromDF (seriesToDF s)
    | _ => none

/-- Whether an outcome is a table- or sequence-shaped success. -/
def isTableOrSeriesSuccess : Outcome → Bool
  | .ok (.vDF _) _ => true
  | .ok (.vSeries _) _ => true
  | _ => false

/-! ## Query orchestrator (`QueryAgent`, query_agent.py)

Python computations are modelled in `Except String`, where `error` carries
the `str` of an uncaught exception. The components whose behaviour depends
on external state (the LLM backend, the loaded datasets) enter as fields of
`OrchestratorEnv`; attribute lookup on an object is modelled explicitly
against the list of methods its class actually defines, since two call
sites in the source name methods that do not exist. -/

/-- The methods `class LlamaStackLLM` defines (llamastack_handler.py). -/
def llamastack_llm_methods : List String :=
  ["chat_completion", "is_available", "send_message", "clear_history",
   "get_history", "get_history_summary", "undo_last_exchange"]

/-- The methods `class QueryAgent` defines (query_agent.py). -/
def query_agent_methods : List String :=
  ["setup_agent", "query", "_query_with_llm", "clear_conversation",
   "get_conversation_summary", "undo_last_query"]

/-- Python attribute lookup `obj.attr` on an object of class `cls` whose
method table is `methods`: an `AttributeError` when the attribute is not
defined. -/
def getattr_method (methods : List String) (cls attr : String) : Except String Unit :=
  if attr ∈ methods then .ok ()
  else .error ("AttributeError: '" ++ cls ++ "' object has no attribute '" ++ attr ++ "'")

/-- External behaviour the orchestrator depends on. `codeGenPath` is
`self.code_generator.query_with_code_generation(question)` (its answer
abstracted to a string); `buildDataSummary` is
`self.context_builder.build_data_summary(query_type)`, which can raise (for
example a `KeyError` when a required column is missing);
`chatResponse` is the response the history-aware chat call would return
(never reached, see `query_with_llm`); `fallbackSummary` is the summary the
missing `_fallback_query` method was meant to produce. -/
structure OrchestratorEnv where
  llmAvailable : Bool
  useCodeGeneration : Bool
  hasCodeGenerator : Bool
  codeGenPath : String → Except String (String × Option Chart)
  buildDataSummary : String → Except String String
  chatResponse : String → String
  fallbackSummary : String → String

/-- Embedding of `QueryAgent._query_with_llm` (query_agent.py lines 105-178)
with the default `use_history=True`: classify the question, build the data
summary, then call `self.llm_backend.chat_with_history(...)` — an attribute
lookup that fails, because `LlamaStackLLM` defines no such method — and on
any exception run the `except` handler, whose f-string calls
`self._fallback_query(question)` — an attribute lookup that also fails,
because `QueryAgent` defines no such method, so the handler itself raises. -/
def query_with_llm (env : OrchestratorEnv) (question : String) : Except String String :=
  let body : Except String String :=
    match env.buildDataSummary (classify_query question) with
    | .error e => .error e
    | .ok _ =>
      match getattr_method llamastack_llm_methods "LlamaStackLLM" "chat_with_history" with
      | .error e => .error e
      | .ok _ =>
        .ok ("**Query Type:** " ++ pyTitle (classify_query question) ++ "\n\n"
          ++ env.chatResponse question)
  match body with
  | .ok s => .ok s
  | .error e =>
    match getattr_method query_agent_methods "QueryAgent" "_fallback_query" with
    | .error e2 => .error e2
    | .ok _ =>
      .ok ("Error with LLM query: " ++ e ++ "\n\nFalling back to simple analysis...\n\n"
        ++ env.fallbackSummary question)

/-- The fixed unavailability message (query_agent.py lines 84-88). -/
def llmUnavailableMsg : String :=
  "❌ LLM is not available. Please ensure LlamaStack server is running and configured correctly."

/-- Embedding of `QueryAgent.query` (query_agent.py lines 77-103): short-cut
when the LLM is unavailable; default `use_code_gen` from the agent's flag;
try the code-generation pipeline and fall back to `_query_with_llm` when it
raises; otherwise use `_query_with_llm` directly. Exceptions raised by
`_query_with_llm` are not caught here. -/
def queryAgent_query (env : OrchestratorEnv) (question : String)
    (useCodeGen : Option Bool) : Except String (String × Option Chart) :=
  if env.llmAvailable = false then .ok (llmUnavailableMsg, none)
  else
    let ucg := useCodeGen.getD env.useCodeGeneration
    if ucg && env.hasCodeGenerator then
      match env.codeGenPath question with
      | .ok res => .ok res
      | .error _ =>
        match query_with_llm env question with
        | .ok s => .ok (s, none)
        | .error e2 => .error e2
    else
      match query_with_llm env question with
      | .ok s => .ok (s, none)
      | .error e2 => .error e2

/-- A concrete environment on which the code-generation path raises while
the data-summary build succeeds. -/
def envC1 : OrchestratorEnv :=
  { llmAvailable := true,
    useCodeGeneration := true,
    hasCodeGenerator := true,
    codeGenPath := fun _ => .error "ValueError: boom",
    buildDataSummary := fun _ => .ok "summary",
    chatResponse := fun _ => "narrative",
    fallbackSummary := fun _ => "fallback summary" }

/-! ## Concrete fixtures -/

/-- An empty dataframe. -/
def emptyDF : DataFrame := ⟨[], []⟩

/-- An empty series. -/
def s0 : SeriesV := ⟨DType.obj, DType.num, []⟩

/-- A data loader holding four empty dataframes. -/
def dl0 : DataLoader := ⟨emptyDF, emptyDF, emptyDF, emptyDF⟩

/-- A one-row store-transactions table. -/
def dfOne : DataFrame := ⟨[("A", DType.num)], [[Cell.cNum 1]]⟩

/-- A data loader whose store-transactions table is `dfOne`. -/
def dl1 : DataLoader := ⟨dfOne, emptyDF, emptyDF, emptyDF⟩

/-! ## C6: undo semantics -/

/-- C6: `undo_last_exchange` succeeds exactly when at least two entries
exist, in which case it removes exactly the last two entries; with fewer
than two entries it is a no-op returning failure; undo immediately after
`clear_history` fails; undo after exactly one exchange (two entries) leaves
the history empty. -/
theorem undo_last_exchange_spec (h : List ChatMsg) :
    ((undo_last_exchange h).2 = true ↔ 2 ≤ h.length)
    ∧ (2 ≤ h.length → ∃ e1 e2, h = (undo_last_exchange h).1 ++ [e1, e2])
    ∧ (h.length < 2 → undo_last_exchange h = (h, false))
    ∧ undo_last_exchange clear_history = (clear_history, false)
    ∧ (h.length = 2 → (undo_last_exchange h).1 = []) := by
  refine ⟨?_, ?_, ?_, rfl, ?_⟩
  · by_cases hl : 2 ≤ h.length <;> simp [undo_last_exchange, hl]
  · intro hl
    have hlen2 : (h.drop (h.length - 2)).length = 2 := by
      rw [List.length_drop]; omega
    obtain ⟨e1, e2, hee⟩ : ∃ e1 e2, h.drop (h.length - 2) = [e1, e2] := by
      rcases hd : h.drop (h.length - 2) with _ | ⟨a, _ | ⟨b, _ | _⟩⟩ <;>
        rw [hd] at hlen2 <;> simp at hlen2
      exact ⟨a, b, rfl⟩
    refine ⟨e1, e2, ?_⟩
    rw [undo_last_exchange, if_pos hl]
    rw [← hee, List.take_append_drop]
  · intro hl
    rw [undo_last_exchange, if_neg (by omega)]
  · intro hl2
    rw [undo_last_exchange, if_pos (by omega), hl2]
    simp

/-- Witness for C6: undoing a two-entry history (one exchange) empties it. -/
theorem undo_last_exchange_spec_witness :
    (([⟨"user", "q"⟩, ⟨"assistant", "a"⟩] : List ChatMsg)).length = 2
    ∧ (undo_last_exchange [⟨"user", "q"⟩, ⟨"assistant", "a"⟩]).1 = [] :=
  ⟨by decide, (undo_last_exchange_spec _).2.2.2.2 (by decide)⟩

/-! ## C10: a `None` result is indistinguishable from a missing result -/

/-- C10: when execution completes with the `result` binding unset or set to
`None`, `execute_code` returns the missing-output failure dict with error
`Code did not produce a result variable` (backquoted in the source) and no
traceback; and a success outcome never carries the `None` value. -/
theorem execute_code_none_result (code : List Stmt) (dl : DataLoader) :
    (completesWithNoneResult code dl = true →
      (execute_code code dl).1 = Outcome.err "Code did not produce a `result` variable" none)
    ∧ (∀ r t, (execute_code code dl).1 = Outcome.ok r t → r ≠ PyValue.vNone) := by
  constructor
  · intro hc
    unfold completesWithNoneResult at hc
    unfold execute_code
    cases hr : runStmts code (initState dl) with
    | error p => rw [hr] at hc; simp at hc
    | ok st =>
      rw [hr] at hc
      cases hrv : st.resultVar with
      | none => simp [hrv]
      | some v => cases v <;> simp_all
  · intro r t hok
    unfold execute_code at hok
    cases hr : runStmts code (initState dl) with
    | error p => rw [hr] at hok; simp at hok
    | ok st =>
      rw [hr] at hok
      cases hrv : st.resultVar with
      | none => simp [hrv] at hok
      | some v => cases v <;> simp_all <;> simp [← hok.1]

/-- Witness for C10: a program whose only statement is `result = None`
yields the missing-output failure. -/
theorem execute_code_none_result_witness :
    completesWithNoneResult [Stmt.assignResult PyValue.vNone] dl0 = true
    ∧ (execute_code [Stmt.assignResult PyValue.vNone] dl0).1
        = Outcome.err "Code did not produce a `result` variable" none :=
  ⟨rfl, (execute_code_none_result [Stmt.assignResult PyValue.vNone] dl0).1 rfl⟩

/-! ## C2: execute_code returns tagged outcomes -/

/-- Applying a statement that is not `result = <expr>` leaves the `result`
binding unchanged. -/
lemma applyStmt_resultVar (st : ExecState) (s : Stmt) (hs : assignsResult s = false) :
    (applyStmt st s).resultVar = st.resultVar := by
  cases s <;> simp_all [assignsResult, applyStmt]

/-- A program with no `result = <expr>` statement completes with the
`result` binding untouched. -/
lemma runStmts_resultVar_of_noAssign :
    ∀ (code : List Stmt) (st st2 : ExecState),
      code.all (fun s => !assignsResult s) = true →
      runStmts code st = .ok st2 → st2.resultVar = st.resultVar := by
  intro code
  induction code with
  | nil =>
    intro st st2 _ hrun
    simp [runStmts] at hrun
    rw [← hrun]
  | cons s rest ih =>
    intro st st2 hall hrun
    simp only [List.all_cons, Bool.and_eq_true, Bool.not_eq_true'] at hall
    rw [runStmts] at hrun
    cases s with
    | raiseStmt m => simp [stepStmt] at hrun
    | assignResult v => simp [assignsResult] at hall
    | rebindTable n df =>
      simp only [stepStmt] at hrun
      rw [ih _ _ hall.2 hrun, applyStmt_resultVar _ _ (by simp [assignsResult])]
    | mutateTable n f =>
      simp only [stepStmt] at hrun
      rw [ih _ _ hall.2 hrun, applyStmt_resultVar _ _ (by simp [assignsResult])]
    | passStmt =>
      simp only [stepStmt] at hrun
      rw [ih _ _ hall.2 hrun, applyStmt_resultVar _ _ (by simp [assignsResult])]

/-- Running a raise-free program followed by a raising statement aborts with
that statement's message. -/
lemma runStmts_append_raise :
    ∀ (pre : List Stmt) (msg : String) (rest : List Stmt) (st : ExecState),
      pre.all (fun s => !isRaise s) = true →
      ∃ st2, runStmts (pre ++ Stmt.raiseStmt msg :: rest) st = .error (msg, st2) := by
  intro pre
  induction pre with
  | nil =>
    intro msg rest st _
    exact ⟨st, by simp [runStmts, stepStmt]⟩
  | cons s pre2 ih =>
    intro msg rest st hall
    simp only [List.all_cons, Bool.and_eq_true, Bool.not_eq_true'] at hall
    cases s with
    | raiseStmt m => simp [isRaise] at hall
    | assignResult v => exact ih msg rest _ hall.2
    | rebindTable n df => exact ih msg rest _ hall.2
    | mutateTable n f => exact ih msg rest _ hall.2
    | passStmt => exact ih msg rest _ hall.2

/-- The diagnostic trace `format_exc` is never the empty string. -/
lemma format_exc_ne_empty (msg : String) : format_exc msg ≠ "" := by
  intro hcon
  have hlen := congrArg String.length hcon
  rw [format_exc, String.length_append] at hlen
  have h35 : ("Traceback (most recent call last):\n" : String).length = 35 := rfl
  have h0 : ("" : String).length = 0 := rfl
  rw [h35, h0] at hlen
  omega

/-- C2 (amended): `execute_code` always returns a tagged outcome and never
propagates an exception: a program that never assigns the `result` binding
never yields a success; a program whose first raising statement carries
message `msg` yields the failure dict with error `msg` — which is empty
exactly when the exception's own message is empty — and a never-empty
diagnostic trace; and a success is returned only when execution completes
with the `result` binding set to the (non-`None`) returned value. -/
theorem execute_code_tagged_outcomes :
    (∀ (code : List Stmt) (dl : DataLoader),
      code.all (fun s => !assignsResult s) = true →
      ∀ r t, (execute_code code dl).1 ≠ Outcome.ok r t)
    ∧ (∀ (pre : List Stmt) (msg : String) (rest : List Stmt) (dl : DataLoader),
      pre.all (fun s => !isRaise s) = true →
      (execute_code (pre ++ Stmt.raiseStmt msg :: rest) dl).1
          = Outcome.err msg (some (format_exc msg))
        ∧ format_exc msg ≠ "")
    ∧ (∀ (code : List Stmt) (dl : DataLoader) (r : PyValue) (t : String),
      (execute_code code dl).1 = Outcome.ok r t →
      execCompletes code dl = true ∧ execResultVar code dl = some r
        ∧ r ≠ PyValue.vNone) := by
  refine ⟨?_, ?_, ?_⟩
  · intro code dl hall r t hok
    unfold execute_code at hok
    cases hr : runStmts code (initState dl) with
    | error p => rw [hr] at hok; simp at hok
    | ok st =>
      rw [hr] at hok
      have hrv : st.resultVar = none := by
        rw [runStmts_resultVar_of_noAssign code (initState dl) st hall hr]
        rfl
      simp [hrv] at hok
  · intro pre msg rest dl hall
    obtain ⟨st2, hrun⟩ := runStmts_append_raise pre msg rest (initState dl) hall
    refine ⟨?_, format_exc_ne_empty msg⟩
    unfold execute_code
    rw [hrun]
  · intro code dl r t hok
    unfold execute_code at hok
    unfold execCompletes execResultVar
    cases hr : runStmts code (initState dl) with
    | error p => rw [hr] at hok; simp at hok
    | ok st =>
      rw [hr] at hok
      cases hrv : st.resultVar with
      | none => simp [hrv] at hok
      | some v => cases v <;> simp_all <;> simp [← hok.1]

/-- Counterexample for C2 as stated: the Python program `raise Exception()`
(a raising statement whose exception stringifies to the empty string) makes
`execute_code` return a failure whose error message is empty, so the claim
that the failure always carries a non-empty error message is false. -/
theorem execute_code_raise_empty_message :
    (execute_code [Stmt.raiseStmt ""] dl0).1 = Outcome.err "" (some (format_exc ""))
    ∧ ("" : String).length = 0 :=
  ⟨rfl, rfl⟩

/-- Witness for C2: a raise with the ordinary non-empty message
`division by zero` yields exactly that failure dict, with a non-empty
trace; and the success-only-if-bound conjunct at a program that assigns
`result = 7`. -/
theorem execute_code_tagged_outcomes_witness :
    (((execute_code [Stmt.raiseStmt "division by zero"] dl0).1
        = Outcome.err "division by zero" (some (format_exc "division by zero")))
      ∧ format_exc "division by zero" ≠ "")
    ∧ (execCompletes [Stmt.assignResult (PyValue.vInt 7)] dl0 = true
      ∧ execResultVar [Stmt.assignResult (PyValue.vInt 7)] dl0 = some (PyValue.vInt 7)
      ∧ PyValue.vInt 7 ≠ PyValue.vNone) :=
  ⟨execute_code_tagged_outcomes.2.1 [] "division by zero" [] dl0 rfl,
   execute_code_tagged_outcomes.2.2 [Stmt.assignResult (PyValue.vInt 7)] dl0
     (PyValue.vInt 7) "int" rfl⟩

/-! ## C3: the execution engine shares dataset references with the loader -/

/-- Applying a statement that is not an in-place table mutation leaves the
data loader unchanged. -/
lemma applyStmt_loader (st : ExecState) (s : Stmt) (hs : isMutate s = false) :
    (applyStmt st s).loader = st.loader := by
  cases s <;> simp_all [isMutate, applyStmt]

/-- A mutation-free program leaves the data loader unchanged, whether it
completes or raises. -/
lemma runStmts_loader_of_noMutate :
    ∀ (code : List Stmt) (st : ExecState),
      code.all (fun s => !isMutate s) = true →
      (∀ st2, runStmts code st = .ok st2 → st2.loader = st.loader)
      ∧ (∀ msg st2, runStmts code st = .error (msg, st2) → st2.loader = st.loader) := by
  intro code
  induction code with
  | nil =>
    intro st _
    constructor
    · intro st2 hrun; simp [runStmts] at hrun; rw [← hrun]
    · intro msg st2 hrun; simp [runStmts] at hrun
  | cons s rest ih =>
    intro st hall
    simp only [List.all_cons, Bool.and_eq_true, Bool.not_eq_true'] at hall
    cases s with
    | raiseStmt m =>
      constructor
      · intro st2 hrun; simp [runStmts, stepStmt] at hrun
      · intro msg st2 hrun
        simp [runStmts, stepStmt] at hrun
        rw [← hrun.2]
    | assignResult v =>
      constructor
      · intro st2 hrun
        simp only [runStmts, stepStmt] at hrun
        rw [(ih _ hall.2).1 st2 hrun, applyStmt_loader _ _ (by simp [isMutate])]
      · intro msg st2 hrun
        simp only [runStmts, stepStmt] at hrun
        rw [(ih _ hall.2).2 msg st2 hrun, applyStmt_loader _ _ (by simp [isMutate])]
    | rebindTable n df =>
      constructor
      · intro st2 hrun
        simp only [runStmts, stepStmt] at hrun
        rw [(ih _ hall.2).1 st2 hrun, applyStmt_loader _ _ (by simp [isMutate])]
      · intro msg st2 hrun
        simp only [runStmts, stepStmt] at hrun
        rw [(ih _ hall.2).2 msg st2 hrun, applyStmt_loader _ _ (by simp [isMutate])]
    | mutateTable n f => simp [isMutate] at hall
    | passStmt =>
      constructor
      · intro st2 hrun
        simp only [runStmts, stepStmt] at hrun
        rw [(ih _ hall.2).1 st2 hrun, applyStmt_loader _ _ (by simp [isMutate])]
      · intro msg st2 hrun
        simp only [runStmts, stepStmt] at hrun
        rw [(ih _ hall.2).2 msg st2 hrun, applyStmt_loader _ _ (by simp [isMutate])]

/-- C3 (amended): `execute_code` binds the dataset names directly to the
data loader's dataframes, without copying: a program that performs no
in-place mutation leaves the loader's four dataframes unchanged, but an
in-place mutation of a dataset persists in the loader after `execute_code`
returns, unless the name was first rebound to a different object (a plain
assignment, which only writes the execution scope). -/
theorem execute_code_loader_aliasing :
    (∀ (code : List Stmt) (dl : DataLoader),
      code.all (fun s => !isMutate s) = true → (execute_code code dl).2 = dl)
    ∧ (∀ (n : DSName) (f : DataFrame → DataFrame) (dl : DataLoader),
      (execute_code [Stmt.mutateTable n f] dl).2 = loaderUpdate n f dl)
    ∧ (∀ (n : DSName) (df0 : DataFrame) (f : DataFrame → DataFrame) (dl : DataLoader),
      (execute_code [Stmt.rebindTable n df0, Stmt.mutateTable n f] dl).2 = dl) := by
  refine ⟨?_, ?_, ?_⟩
  · intro code dl hall
    unfold execute_code
    cases hr : runStmts code (initState dl) with
    | error p =>
      cases p with
      | mk msg st2 =>
        have := (runStmts_loader_of_noMutate code (initState dl) hall).2 msg st2 hr
        simp [this, initState]
    | ok st =>
      have := (runStmts_loader_of_noMutate code (initState dl) hall).1 st hr
      cases hrv : st.resultVar.getD PyValue.vNone <;> simp [this, initState, hrv]
  · intro n f dl
    simp [execute_code, runStmts, stepStmt, applyStmt, initState]
  · intro n df0 f dl
    simp [execute_code, runStmts, stepStmt, applyStmt, initState]

/-- Counterexample for C3 as stated: a generated program that mutates the
`store_transactions` table in place (for example dropping its rows, or the
prompt's own example `store_transactions["Date"] = pd.to_datetime(...)`)
leaves the data loader's dataframes changed after `execute_code` returns,
so the engine does not supply fresh, isolated dataset references. -/
theorem execute_code_mutation_leaks :
    (execute_code [Stmt.mutateTable DSName.storeTransactions
        (fun df => { df with rows := [] })] dl1).2 ≠ dl1 := by
  decide

/-- Witness for C3 (amended): a mutation-free program leaves the loader
unchanged. -/
theorem execute_code_loader_aliasing_witness :
    (execute_code [Stmt.passStmt, Stmt.assignResult (PyValue.vInt 1)] dl1).2 = dl1 :=
  execute_code_loader_aliasing.1 [Stmt.passStmt, Stmt.assignResult (PyValue.vInt 1)] dl1 rfl

/-! ## C1: the orchestrator surfaces a raw AttributeError -/

/-- Looking up `chat_with_history` on a `LlamaStackLLM` object raises,
because the class defines no such method (only `send_message` exists). -/
lemma chat_with_history_missing :
    getattr_method llamastack_llm_methods "LlamaStackLLM" "chat_with_history"
      = Except.error "AttributeError: 'LlamaStackLLM' object has no attribute 'chat_with_history'" :=
  rfl

/-- Looking up `_fallback_query` on a `QueryAgent` object raises, because
the class defines no such method. -/
lemma fallback_query_missing :
    getattr_method query_agent_methods "QueryAgent" "_fallback_query"
      = Except.error "AttributeError: 'QueryAgent' object has no attribute '_fallback_query'" :=
  rfl

/-- C1 is false of the code: the narrative-only path `_query_with_llm`
always raises — its body calls the nonexistent
`LlamaStackLLM.chat_with_history` (and any earlier failure, e.g. in
`build_data_summary`, lands in the same handler), and its `except` handler
then calls the nonexistent `QueryAgent._fallback_query`, so the handler
itself raises `AttributeError` — and therefore `query` surfaces that raw
exception to the caller whenever the code-generation path raises (shown on
a concrete environment whose code-generation path raises `ValueError`),
instead of returning a fallback answer. -/
theorem query_surfaces_raw_attribute_error :
    (∀ (env : OrchestratorEnv) (q : String),
      query_with_llm env q
        = Except.error "AttributeError: 'QueryAgent' object has no attribute '_fallback_query'")
    ∧ queryAgent_query envC1 "hi" none
        = Except.error "AttributeError: 'QueryAgent' object has no attribute '_fallback_query'" := by
  constructor
  · intro env q
    unfold query_with_llm
    cases henv : env.buildDataSummary (classify_query q) with
    | error e => rw [fallback_query_missing]
    | ok s => rw [chat_with_history_missing, fallback_query_missing]
  · rfl

/-! ## C4: intent classification -/

/-- CPython `max` over the four-entry score dict picks the first key in
insertion order whose score is maximal. -/
lemma pyMaxByKey_four (p c a d : Nat) :
    pyMaxByKey ("performance", p) [("comparison", c), ("anomaly", a), ("drilldown", d)]
      = if c ≤ p ∧ a ≤ p ∧ d ≤ p then "performance"
        else if a ≤ c ∧ d ≤ c then "comparison"
        else if d ≤ a then "anomaly"
        else "drilldown" := by
  unfold pyMaxByKey
  simp only [List.foldl]
  split_ifs <;> simp_all <;> omega

/-- `max(scores.values())` is zero exactly when all four scores are zero. -/
lemma foldl_max_four (p c a d : Nat) :
    [p, c, a, d].foldl Nat.max 0 = 0 ↔ p = 0 ∧ c = 0 ∧ a = 0 ∧ d = 0 := by
  simp [List.foldl]
  omega

/-- C4: `classify_query` agrees everywhere with the specification-side
classifier: `general` when all four keyword-set scores are zero, otherwise
the intent with the highest substring-hit score, ties broken by the fixed
enumeration order `performance`, `comparison`, `anomaly`, `drilldown`; as a
Lean function it is in particular pure, total and deterministic. -/
theorem classify_query_eq_spec (q : String) : classify_query q = classify_query_spec q := by
  simp only [classify_query, classify_query_spec]
  generalize countHits performance_keywords (pyLower q.data) = p
  generalize countHits comparison_keywords (pyLower q.data) = c
  generalize countHits anomaly_keywords (pyLower q.data) = a
  generalize countHits drilldown_keywords (pyLower q.data) = d
  rw [pyMaxByKey_four]
  split_ifs with h1 h2 <;> first | rfl | (rw [foldl_max_four] at h1; omega)

/-! ## C5: conversation-history cap and FIFO eviction -/

/-- The length of `lastN`. -/
lemma lastN_length (k : Nat) (l : List α) : (lastN k l).length = min k l.length := by
  simp [lastN]

/-- `lastN` of a list no longer than `k` is the whole list. -/
lemma lastN_of_le (k : Nat) (l : List α) (h : l.length ≤ k) : lastN k l = l := by
  rw [lastN, List.take_of_length_le (by simpa using h), List.reverse_reverse]

/-- Taking the last `k` again after appending is the same as taking the last
`k` of the whole appended list. -/
lemma lastN_append (k : Nat) (l p : List α) :
    lastN k (lastN k l ++ p) = lastN k (l ++ p) := by
  unfold lastN
  rw [List.reverse_append, List.reverse_reverse, List.reverse_append]
  rw [List.take_append_eq_append_take, List.take_append_eq_append_take]
  rw [List.take_take]
  congr 2
  simp

/-- `appendedEntries` unfolds one exchange at a time. -/
lemma appendedEntries_cons (e : String × String) (exs : List (String × String)) :
    appendedEntries (e :: exs) = entriesOf e ++ appendedEntries exs := by
  unfold appendedEntries entriesOf
  cases he : pyStartsWith "Error".data e.2.data <;> simp [List.filter_cons, he]

/-- For a positive history bound, one `send_message` keeps exactly the most
recent at-most-`2 * maxHistory` entries of history plus the appended pair. -/
lemma send_message_step (m : Nat) (h : List ChatMsg) (u r : String)
    (hh : h.length ≤ (m + 1) * 2) :
    send_message_update (m + 1) h u r = lastN ((m + 1) * 2) (h ++ entriesOf (u, r)) := by
  unfold send_message_update entriesOf
  by_cases he : pyStartsWith "Error".data r.data = true
  · rw [if_pos he, if_pos he, List.append_nil, lastN_of_le _ _ hh]
  · rw [if_neg he, if_neg he]
    by_cases hlen :
        (m + 1) * 2 < (h ++ [(⟨"user", u⟩ : ChatMsg), ⟨"assistant", r⟩]).length
    · rw [if_pos hlen, pySliceLast, if_neg (by omega)]
    · rw [if_neg hlen, lastN_of_le _ _ (Nat.le_of_not_lt hlen)]

/-- Folding `send_message` over a sequence of exchanges from a history
within the cap keeps exactly the most recent at-most-`2 * maxHistory`
entries of everything appended. -/
lemma histAfter_fold (m : Nat) :
    ∀ (exs : List (String × String)) (h : List ChatMsg), h.length ≤ (m + 1) * 2 →
      exs.foldl (fun h2 e => send_message_update (m + 1) h2 e.1 e.2) h
        = lastN ((m + 1) * 2) (h ++ appendedEntries exs) := by
  intro exs
  induction exs with
  | nil =>
    intro h hh
    simp [appendedEntries]
    exact (lastN_of_le _ _ hh).symm
  | cons e rest ih =>
    intro h hh
    rw [List.foldl_cons, send_message_step m h e.1 e.2 hh]
    rw [ih _ (by rw [lastN_length]; omega)]
    rw [lastN_append, appendedEntries_cons, List.append_assoc]

/-- C5 (amended): for every positive `max_history` bound `m + 1`, after any
sequence of `send_message` exchanges the conversation history never exceeds
`2 × max_history` entries, and it consists of exactly the most recent
at-most-`2 × max_history` appended entries, so the oldest entries are the
ones evicted (FIFO). -/
theorem send_message_history_fifo (m : Nat) (exs : List (String × String)) :
    (histAfter (m + 1) exs).length ≤ (m + 1) * 2
    ∧ histAfter (m + 1) exs = lastN ((m + 1) * 2) (appendedEntries exs) := by
  have h2 : histAfter (m + 1) exs = lastN ((m + 1) * 2) (appendedEntries exs) := by
    rw [histAfter, histAfter_fold m exs [] (by simp), List.nil_append]
  exact ⟨by rw [h2, lastN_length]; omega, h2⟩

/-- Counterexample for C5 as stated: with `max_history = 0` the trimming
slice is `conversation_history[-0:]`, i.e. the whole list, so after one
successful exchange the history has 2 entries, exceeding the claimed cap of
`2 × max_history = 0`. -/
theorem send_message_cap_fails_at_zero :
    (histAfter 0 [("hi", "ok")]).length = 2
    ∧ ¬((histAfter 0 [("hi", "ok")]).length ≤ 2 * 0) := by decide

/-! ## C7: result formatting and truncation -/

/-- C7: a successful table of more than 20 rows is rendered as a count
header, exactly its first 10 rows, and the annotation
`... (showing 10 of N rows)`; a table of at most 20 rows is rendered in
full; likewise for sequences (with `values`); scalars print directly; and
mappings print as indented `key: value` lines. -/
theorem format_result_spec (df : DataFrame) (s : SeriesV) (t : String) (n : Int)
    (strv : String) (entries : List (String × String)) :
    (20 < df.rows.length →
      format_result (.ok (.vDF df) t)
        = "DataFrame with " ++ Nat.repr df.rows.length ++ " rows and "
            ++ Nat.repr df.header.length ++ " columns\n\n" ++ "First 10 rows:\n"
            ++ dfToString ⟨df.header, df.rows.take 10⟩
            ++ "\n\n... (showing 10 of " ++ Nat.repr df.rows.length ++ " rows)"
        ∧ (df.rows.take 10).length = 10)
    ∧ (df.rows.length ≤ 20 → format_result (.ok (.vDF df) t) = dfToString df)
    ∧ (20 < s.entries.length →
      format_result (.ok (.vSeries s) t)
        = "Series with " ++ Nat.repr s.entries.length ++ " values\n\n"
            ++ "First 10 values:\n"
            ++ seriesToString ⟨s.idxType, s.valType, s.entries.take 10⟩
            ++ "\n\n... (showing 10 of " ++ Nat.repr s.entries.length ++ " values)"
        ∧ (s.entries.take 10).length = 10)
    ∧ (s.entries.length ≤ 20 → format_result (.ok (.vSeries s) t) = seriesToString s)
    ∧ format_result (.ok (.vInt n) t) = "Result: " ++ Int.repr n
    ∧ format_result (.ok (.vStr strv) t) = "Result: " ++ strv
    ∧ format_result (.ok (.vDict entries) t)
        = "Result (dictionary):\n"
            ++ String.join (entries.map (fun kv => "  " ++ kv.1 ++ ": " ++ kv.2 ++ "\n")) := by
  refine ⟨?_, ?_, ?_, ?_, rfl, rfl, rfl⟩
  · intro hlen
    constructor
    · simp only [format_result]
      rw [if_pos hlen]
      rfl
    · rw [List.length_take]
      omega
  · intro hlen
    simp only [format_result]
    rw [if_neg (by omega)]
  · intro hlen
    constructor
    · simp only [format_result]
      rw [if_pos hlen]
      rfl
    · rw [List.length_take]
      omega
  · intro hlen
    simp only [format_result]
    rw [if_neg (by omega)]

/-- A 25-row one-column table. -/
def df25 : DataFrame :=
  ⟨[("Revenue", DType.num)], (List.range 25).map (fun k => [Cell.cNum (Int.ofNat k)])⟩

/-- Witness for C7: the 25-row table renders as its first 10 rows plus the
annotation `... (showing 10 of 25 rows)`. -/
theorem format_result_spec_witness :
    20 < df25.rows.length
    ∧ (format_result (.ok (.vDF df25) "DataFrame")
        = "DataFrame with " ++ Nat.repr df25.rows.length ++ " rows and "
            ++ Nat.repr df25.header.length ++ " columns\n\n" ++ "First 10 rows:\n"
            ++ dfToString ⟨df25.header, df25.rows.take 10⟩
            ++ "\n\n... (showing 10 of " ++ Nat.repr df25.rows.length ++ " rows)"
        ∧ (df25.rows.take 10).length = 10) :=
  ⟨by decide, (format_result_spec df25 s0 "DataFrame" 0 "" []).1 (by decide)⟩

/-! ## C8: chart-type decision -/

/-- C8 (amended): chart selection is pure given an outcome; only table- or
sequence-shaped successes are eligible for a chart; an outcome whose
(possibly coerced) table has zero numeric columns yields no chart; and
every nonempty table with exactly two numeric columns and no categorical
column yields a scatter-type decision (an empty such table yields no
chart). -/
theorem create_visualization_spec :
    (∀ o1 o2 : Outcome, o1 = o2 → create_visualization o1 = create_visualization o2)
    ∧ (∀ o : Outcome, isTableOrSeriesSuccess o = false → create_visualization o = none)
    ∧ (∀ (df : DataFrame) (t : String), (numericColNames df).length = 0 →
        create_visualization (.ok (.vDF df) t) = none)
    ∧ (∀ (s : SeriesV) (t : String), (numericColNames (seriesToDF s)).length = 0 →
        create_visualization (.ok (.vSeries s) t) = none)
    ∧ (∀ (df : DataFrame) (t : String), df.rows ≠ [] →
        (numericColNames df).length = 2 → catColNames df = [] →
        ∃ ch, create_visualization (.ok (.vDF df) t) = some ch
          ∧ ch.kind = ChartKind.scatter) := by
  have hzero : ∀ df : DataFrame, (numericColNames df).length = 0 → vizFromDF df = none := by
    intro df hn
    rw [List.length_eq_zero] at hn
    unfold vizFromDF
    rw [hn]
    by_cases hr : df.rows.length = 0
    · rw [if_pos hr]
    · rw [if_neg hr]
  refine ⟨?_, ?_, ?_, ?_, ?_⟩
  · intro o1 o2 h
    rw [h]
  · intro o ho
    cases o with
    | err e tb => rfl
    | ok r t => cases r <;> simp [isTableOrSeriesSuccess] at ho ⊢ <;> rfl
  · intro df t hn
    show vizFromDF df = none
    exact hzero df hn
  · intro s t hn
    show vizFromDF (seriesToDF s) = none
    exact hzero (seriesToDF s) hn
  · intro df t hrows hn hcat
    obtain ⟨a, b, hab⟩ : ∃ a b, numericColNames df = [a, b] := by
      rcases hd : numericColNames df with _ | ⟨a, _ | ⟨b, _ | _⟩⟩ <;>
        rw [hd] at hn <;> simp at hn
      exact ⟨a, b, rfl⟩
    refine ⟨⟨ChartKind.scatter, df⟩, ?_, rfl⟩
    show vizFromDF df = some ⟨ChartKind.scatter, df⟩
    unfold vizFromDF
    rw [if_neg (by simpa using hrows), hab, hcat]
    simp

/-- An empty table with two numeric columns and no categorical column. -/
def dfEmpty2Num : DataFrame := ⟨[("a", DType.num), ("b", DType.num)], []⟩

/-- Counterexample for C8 as stated: an empty table with exactly two
numeric columns and no categorical column yields no chart, not a
scatter-type decision (the selector returns before the shape dispatch when
the frame has no rows). -/
theorem create_visualization_empty_two_numeric :
    numericColNames dfEmpty2Num = ["a", "b"]
    ∧ catColNames dfEmpty2Num = []
    ∧ create_visualization (.ok (.vDF dfEmpty2Num) "DataFrame") = none := by
  refine ⟨by decide, by decide, by decide⟩

/-- A one-row table with two numeric columns and no categorical column. -/
def dfScatter : DataFrame :=
  ⟨[("x", DType.num), ("y", DType.num)], [[Cell.cNum 1, Cell.cNum 2]]⟩

/-- Witness for C8 (amended): a nonempty two-numeric-column, no-category
table yields a scatter decision. -/
theorem create_visualization_spec_witness :
    ∃ ch, create_visualization (.ok (.vDF dfScatter) "DataFrame") = some ch
      ∧ ch.kind = ChartKind.scatter :=
  create_visualization_spec.2.2.2.2 dfScatter "DataFrame" (by decide) (by decide) (by decide)

/-! ## C9: row capping to the 15 largest -/

/-- C9: a charted table with exactly one numeric column, at least one
non-numeric column and more than 15 rows is plotted as a bar chart whose
frame retains exactly 15 rows, and those 15 are the largest by the numeric
column: every plotted row's value is at least every dropped row's value,
and plotted plus dropped rows are exactly the original rows. -/
theorem create_visualization_rowcap (df : DataFrame) (t v : String)
    (hnum : numericColNames df = [v]) (hcat : catColNames df ≠ [])
    (hlen : 15 < df.rows.length) :
    ∃ ch rest,
      create_visualization (.ok (.vDF df) t) = some ch
      ∧ ch.kind = ChartKind.bar
      ∧ ch.plotted.rows.length = 15
      ∧ (ch.plotted.rows ++ rest).Perm df.rows
      ∧ ∀ r1 ∈ ch.plotted.rows, ∀ r2 ∈ rest, cellKey df v r2 ≤ cellKey df v r1 := by
  obtain ⟨c, cs, hcc⟩ : ∃ c cs, catColNames df = c :: cs := by
    cases hd : catColNames df with
    | nil => exact absurd hd hcat
    | cons c cs => exact ⟨c, cs, rfl⟩
  have hviz : create_visualization (.ok (.vDF df) t)
      = some ⟨ChartKind.bar, nlargestDF 15 v df⟩ := by
    show vizFromDF df = _
    unfold vizFromDF
    rw [if_neg (by omega), hnum, hcc]
    simp [hlen]
  have hperm0 := List.perm_insertionSort
    (fun a b => cellKey df v b ≤ cellKey df v a) df.rows
  have hsl : (List.insertionSort
      (fun a b => cellKey df v b ≤ cellKey df v a) df.rows).length = df.rows.length :=
    hperm0.length_eq
  refine ⟨⟨ChartKind.bar, nlargestDF 15 v df⟩,
    (List.insertionSort (fun a b => cellKey df v b ≤ cellKey df v a) df.rows).drop 15,
    hviz, rfl, ?_, ?_, ?_⟩
  · show ((List.insertionSort _ df.rows).take 15).length = 15
    rw [List.length_take]
    omega
  · show ((List.insertionSort _ df.rows).take 15 ++ (List.insertionSort _ df.rows).drop 15).Perm df.rows
    rw [List.take_append_drop]
    exact hperm0
  · haveI : IsTotal (List Cell) (fun a b => cellKey df v b ≤ cellKey df v a) :=
      ⟨fun x y => le_total (cellKey df v y) (cellKey df v x)⟩
    haveI : IsTrans (List Cell) (fun a b => cellKey df v b ≤ cellKey df v a) :=
      ⟨fun x y z hxy hyz => le_trans hyz hxy⟩
    have hsorted := List.sorted_insertionSort
      (fun a b => cellKey df v b ≤ cellKey df v a) df.rows
    have hpw : List.Pairwise (fun a b => cellKey df v b ≤ cellKey df v a)
        ((List.insertionSort (fun a b => cellKey df v b ≤ cellKey df v a) df.rows).take 15
          ++ (List.insertionSort (fun a b => cellKey df v b ≤ cellKey df v a) df.rows).drop 15) := by
      rw [List.take_append_drop]
      exact hsorted
    exact (List.pairwise_append.mp hpw).2.2

/-- A 16-row table with one categorical and one numeric column. -/
def df16 : DataFrame :=
  ⟨[("Product", DType.obj), ("Revenue", DType.num)],
   (List.range 16).map (fun k => [Cell.cStr "p", Cell.cNum (Int.ofNat k)])⟩

/-- Witness for C9: charting the 16-row table keeps exactly its top 15 rows
by the numeric column. -/
theorem create_visualization_rowcap_witness :
    ∃ ch rest,
      create_visualization (.ok (.vDF df16) "DataFrame") = some ch
      ∧ ch.kind = ChartKind.bar
      ∧ ch.plotted.rows.length = 15
      ∧ (ch.plotted.rows ++ rest).Perm df16.rows
      ∧ ∀ r1 ∈ ch.plotted.rows, ∀ r2 ∈ rest,
          cellKey df16 "Revenue" r2 ≤ cellKey df16 "Revenue" r1 :=
  create_visualization_rowcap df16 "DataFrame" "Revenue" (by decide) (by decide) (by decide)

end ExecDash
